import Mathlib

/-!
# Verification of the websocket-presence core

Shallow embedding of the connection-lifecycle and presence fan-out core of
the `websocket-presence` repository, translated from
`src/core/presence/presence-service.ts` and
`src/core/websocket/websocket-service.ts`.

Conventions of the embedding:

* JavaScript `Map` objects are total functions into `Option`; `Set` objects
  of websocket clients are duplicate-free `List Nat` (a `Nat` stands for the
  identity of one `ws` object).
* Timestamps (`Date.now()`, ISO strings) are `Nat` instants.
* The Firebase collaborator (`firebaseService.updatePresence`) is modelled
  by a boolean `storeOk` per call: `true` means the awaited write resolves,
  `false` means it rejects, in which case the service's `catch` block logs
  and rethrows (`threw := true`) and the statements that follow the `await`
  are skipped — exactly the control flow of the TypeScript `try`/`catch`.
* Result records carry the externally visible effects: attempted store
  writes, `broadcastPresenceUpdate` invocations, whether the call threw.
-/

namespace WsPresence

/-- Enum `UserPresenceStatus` from `src/types/websocket.ts`. -/
inductive UserPresenceStatus where
  | online
  | offline
  | away
  | busy
deriving DecidableEq, Repr

/-- Free-form presence metadata (`Record<string, any>`), as an association
list of string keys. -/
abbrev Metadata := List (String × String)

/-- JavaScript object spread `{...old, ...new}`: keys of `new` win, keys
only in `old` survive. -/
def mergeMeta (old new : Metadata) : Metadata :=
  old.filter (fun p => !(new.any (fun q => q.1 == p.1))) ++ new

/-- Record type `PresenceData` from `src/types/websocket.ts`; `metadata` is optional
there, so `Option` here (`none` = field absent). -/
structure PresenceData where
  userId : String
  status : UserPresenceStatus
  lastSeen : Nat
  metadata : Option Metadata
deriving DecidableEq, Repr

/-- Pointwise update of a map-as-function (`Map.set` for `v = some _`,
`Map.delete` for `v = none`). -/
def upd {κ α : Type} [DecidableEq κ] (m : κ → Option α) (k : κ) (v : Option α) :
    κ → Option α :=
  fun x => if x = k then v else m x

theorem upd_same {κ α : Type} [DecidableEq κ] (m : κ → Option α) (k : κ) (v : Option α) :
    upd m k v k = v := by
  simp [upd]

theorem upd_other {κ α : Type} [DecidableEq κ] (m : κ → Option α) (k : κ) (v : Option α)
    {x : κ} (h : x ≠ k) : upd m k v x = m x := by
  simp [upd, h]

/-- JavaScript `Set.add`: a no-op when the element is already a member. -/
def setAdd (l : List Nat) (c : Nat) : List Nat :=
  if c ∈ l then l else l ++ [c]

/-- JavaScript `Set.delete`. -/
def setDel (l : List Nat) (c : Nat) : List Nat :=
  l.filter (fun x => x != c)

theorem setAdd_length_pos (l : List Nat) (c : Nat) : 0 < (setAdd l c).length := by
  unfold setAdd
  split
  · rename_i h
    exact List.length_pos.mpr (List.ne_nil_of_mem h)
  · simp

theorem setAdd_length_le (l : List Nat) (c : Nat) :
    (setAdd l c).length ≤ l.length + 1 := by
  unfold setAdd
  split
  · omega
  · simp

theorem setDel_length_le (l : List Nat) (c : Nat) : (setDel l c).length ≤ l.length :=
  List.length_filter_le _ l

theorem setDel_not_mem (l : List Nat) (c : Nat) : c ∉ setDel l c := by
  intro h
  have := List.of_mem_filter h
  simp at this

theorem setDel_of_not_mem (l : List Nat) (c : Nat) (h : c ∉ l) : setDel l c = l := by
  unfold setDel
  apply List.filter_eq_self.mpr
  intro a ha
  simp only [bne_iff_ne, ne_eq, decide_eq_true_eq]
  intro hac
  exact h (hac ▸ ha)

theorem setDel_idem (l : List Nat) (c : Nat) : setDel (setDel l c) c = setDel l c :=
  setDel_of_not_mem _ _ (setDel_not_mem l c)

/-- The in-memory state owned by `PresenceService`: `presenceMap` and
`connections` (`Map<string, Set<WebSocketClient>>`). -/
@[ext]
structure PresenceState where
  presenceMap : String → Option PresenceData
  connections : String → Option (List Nat)

/-- The state of a freshly constructed `PresenceService` (both maps empty). -/
def pinit : PresenceState :=
  { presenceMap := fun _ => none, connections := fun _ => none }

/-- Number of live connections the presence service records for a user:
`connections.get(userId)?.size ?? 0`. -/
def connCount (st : PresenceState) (u : String) : Nat :=
  ((st.connections u).getD []).length

/-- The status stored for a user, if a record exists. -/
def statusOf (st : PresenceState) (u : String) : Option UserPresenceStatus :=
  (st.presenceMap u).map PresenceData.status

/-- Outcome of one `PresenceService` method call: the new state plus the
externally visible effects. -/
structure PResult where
  state : PresenceState
  storeWrites : List PresenceData
  broadcasts : List String
  threw : Bool

/-- Method `PresenceService.addConnection` (presence-service.ts lines 62–84):
ensure a connection set exists, add the client, unconditionally overwrite
the record with a fresh ONLINE record (no metadata field in the literal),
then `await firebaseService.updatePresence`.  A store failure is caught,
logged and rethrown; the in-memory mutations made before the `await`
remain.  Note: `addConnection` never calls `broadcastPresenceUpdate`. -/
def addConnection (st : PresenceState) (u : String) (c : Nat) (now : Nat)
    (storeOk : Bool) : PResult :=
  let l0 := (st.connections u).getD []
  let pd : PresenceData := ⟨u, .online, now, none⟩
  let st1 : PresenceState :=
    { presenceMap := upd st.presenceMap u (some pd)
      connections := upd st.connections u (some (setAdd l0 c)) }
  ⟨st1, [pd], [], !storeOk⟩

/-- Method `PresenceService.removeConnection` (lines 91–118): if the user has a
connection set, delete the client from it; if the set becomes empty, write
an OFFLINE record, delete the key, `await` the store write and then
broadcast.  A store failure is rethrown after the in-memory mutations, so
the broadcast is skipped. -/
def removeConnection (st : PresenceState) (u : String) (c : Nat) (now : Nat)
    (storeOk : Bool) : PResult :=
  match st.connections u with
  | none => ⟨st, [], [], false⟩
  | some l =>
    let l1 := setDel l c
    if l1 = [] then
      let pd : PresenceData := ⟨u, .offline, now, none⟩
      let st1 : PresenceState :=
        { presenceMap := upd st.presenceMap u (some pd)
          connections := upd st.connections u none }
      ⟨st1, [pd], if storeOk then [u] else [], !storeOk⟩
    else
      ⟨{ st with connections := upd st.connections u (some l1) }, [], [], false⟩

/-- Method `PresenceService.updatePresence` (lines 125–149): read the existing
record or default to a fresh ONLINE one, overwrite status and `lastSeen`,
merge metadata when the argument is present, store the record, `await` the
store write, then broadcast.  There is no check that the user has any live
connection.  A store failure is rethrown after the in-memory mutation, so
the broadcast is skipped. -/
def updatePresence (st : PresenceState) (u : String) (s : UserPresenceStatus)
    (md : Option Metadata) (now : Nat) (storeOk : Bool) : PResult :=
  let pd0 := (st.presenceMap u).getD ⟨u, .online, now, none⟩
  let pd : PresenceData :=
    { pd0 with
        status := s
        lastSeen := now
        metadata := match md with
          | none => pd0.metadata
          | some m => some (mergeMeta (pd0.metadata.getD []) m) }
  let st1 : PresenceState := { st with presenceMap := upd st.presenceMap u (some pd) }
  ⟨st1, [pd], if storeOk then [u] else [], !storeOk⟩

/-- One `PresenceService` call, for reasoning about call sequences. -/
inductive POp where
  | add (u : String) (c : Nat) (now : Nat) (storeOk : Bool)
  | remove (u : String) (c : Nat) (now : Nat) (storeOk : Bool)
  | update (u : String) (s : UserPresenceStatus) (md : Option Metadata) (now : Nat)
      (storeOk : Bool)

/-- Whether the call is `addConnection` or `removeConnection` (rather than
`updatePresence`). -/
def POp.isAddRemove : POp → Bool
  | .add _ _ _ _ => true
  | .remove _ _ _ _ => true
  | .update _ _ _ _ _ => false

/-- State transition of one call (effects dropped). -/
def applyPOp (st : PresenceState) : POp → PresenceState
  | .add u c now sOk => (addConnection st u c now sOk).state
  | .remove u c now sOk => (removeConnection st u c now sOk).state
  | .update u s md now sOk => (updatePresence st u s md now sOk).state

/-- Run a sequence of `PresenceService` calls. -/
def runOps (st : PresenceState) : List POp → PresenceState
  | [] => st
  | op :: ops => runOps (applyPOp st op) ops

/-! ## The `WebSocketServer` (src/core/websocket/websocket-service.ts) -/

/-- The constructor's default `options` object. -/
structure ServerOptions where
  heartbeatInterval : Nat
  maxConnectionsPerUser : Nat
  messageRateLimit : Nat
  maxMessageSize : Nat

/-- Defaults `{ heartbeatInterval: 30000, maxConnectionsPerUser: 5,
messageRateLimit: 100, maxMessageSize: 1024 * 1024 }`. -/
def defaultOptions : ServerOptions :=
  ⟨30000, 5, 100, 1024 * 1024⟩

/-- The fields the server sets on a `ws` object at accept time
(`ws.userId`, `ws.isAlive`, `ws.messageCount`, `ws.lastMessageTime`). -/
structure ConnInfo where
  userId : Option String
  isAlive : Bool
  messageCount : Nat
  lastMessageTime : Nat
deriving DecidableEq, Repr

/-- State owned by `WebSocketServer` plus the `PresenceService` it drives:
`clientMap : Map<string, Set<WebSocketClient>>` and, per `ws` object
identity, the fields set on it (`none` while the object carries none). -/
@[ext]
structure ServerState where
  clientMap : String → Option (List Nat)
  conns : Nat → Option ConnInfo
  presence : PresenceState

/-- Server state at startup. -/
def sinit : ServerState :=
  { clientMap := fun _ => none, conns := fun _ => none, presence := pinit }

/-- Count `clientMap.get(userId)?.size || 0`, the count `canUserConnect` tests. -/
def serverCount (st : ServerState) (u : String) : Nat :=
  ((st.clientMap u).getD []).length

/-- Method `WebSocketServer.canUserConnect` (lines 129–132). -/
def canUserConnect (opts : ServerOptions) (st : ServerState) (u : String) : Bool :=
  decide (serverCount st u < opts.maxConnectionsPerUser)

/-- Method `WebSocketServer.removeClient` (lines 118–126): delete the socket from
the user's set and drop the key when the set empties. -/
def removeClient (cm : String → Option (List Nat)) (u : String) (c : Nat) :
    String → Option (List Nat) :=
  match cm u with
  | none => cm
  | some l =>
    let l1 := setDel l c
    if l1 = [] then upd cm u none else upd cm u (some l1)

/-- Outcome of one server-level event: the new state, the close issued on
the triggering socket (code and reason, if any), and the presence-side
effects. -/
structure SResult where
  state : ServerState
  close : Option (Nat × String)
  storeWrites : List PresenceData
  broadcasts : List String
  threw : Bool

/-- The `connection` handler of `setupServerHandlers` (lines 54–106), with
the `userId` query parameter already extracted (`none` both when the
parameter is absent and when the URL fails to parse).  A falsy (missing or
empty) `userId` and a failed `canUserConnect` check are routed through
`handleError`, which closes with code 1008 and the message as reason; on
admission the socket is added to `clientMap`, its fields are set, and
`presenceService.addConnection` is awaited — if that throws, the catch-all
closes the socket with 1011 while every mutation already made stays. -/
def acceptConn (opts : ServerOptions) (st : ServerState) (userIdParam : Option String)
    (c : Nat) (now : Nat) (storeOk : Bool) : SResult :=
  match userIdParam with
  | none => ⟨st, some (1008, "userId is required"), [], [], false⟩
  | some u =>
    if u = "" then
      ⟨st, some (1008, "userId is required"), [], [], false⟩
    else if !canUserConnect opts st u then
      ⟨st, some (1008, "Maximum connections reached for user"), [], [], false⟩
    else
      let cm := upd st.clientMap u (some (setAdd ((st.clientMap u).getD []) c))
      let cs := upd st.conns c (some ⟨some u, true, 0, now⟩)
      let r := addConnection st.presence u c now storeOk
      let st1 : ServerState := ⟨cm, cs, r.state⟩
      if r.threw then
        ⟨st1, some (1011, "Internal server error"), r.storeWrites, r.broadcasts, true⟩
      else
        ⟨st1, none, r.storeWrites, r.broadcasts, false⟩

/-- The socket `close` handler (`createCloseHandler`, lines 199–221)
restricted to its state effects: guarded on `ws.userId` being set, it runs
`removeClient` and awaits `presenceService.removeConnection`; an error out
of the latter is caught and only logged.  `ws.userId` is never cleared, so
a repeat of the event runs the same two calls again. -/
def releaseConn (st : ServerState) (c : Nat) (now : Nat) (storeOk : Bool) : SResult :=
  match st.conns c with
  | none => ⟨st, none, [], [], false⟩
  | some info =>
    match info.userId with
    | none => ⟨st, none, [], [], false⟩
    | some u =>
      let cm := removeClient st.clientMap u c
      let r := removeConnection st.presence u c now storeOk
      ⟨⟨cm, st.conns, r.state⟩, none, r.storeWrites, r.broadcasts, r.threw⟩

/-- One server-level event, for reasoning about event sequences. -/
inductive SOp where
  | accept (userIdParam : Option String) (c : Nat) (now : Nat) (storeOk : Bool)
  | close (c : Nat) (now : Nat) (storeOk : Bool)

/-- State transition of one server-level event. -/
def applySOp (opts : ServerOptions) (st : ServerState) : SOp → ServerState
  | .accept p c now sOk => (acceptConn opts st p c now sOk).state
  | .close c now sOk => (releaseConn st c now sOk).state

/-- Run a sequence of server-level events. -/
def runServer (opts : ServerOptions) (st : ServerState) : List SOp → ServerState
  | [] => st
  | op :: ops => runServer opts (applySOp opts st op) ops

/-! ## The inbound-message path -/

/-- Enum `WebSocketMessageType` from `src/types/websocket.ts`; `other` stands
for any value that is none of the six (the `default` branch of
`handleMessage`, including a missing `type`). -/
inductive MsgType where
  | connect
  | disconnect
  | heartbeat
  | heartbeatAck
  | presenceUpdate
  | error
  | other
deriving DecidableEq, Repr

/-- A structurally valid wire message, reduced to the fields
`handleMessage` and `handlePresenceUpdate` read: the `type`, and the truthy
`payload.status` / `payload.metadata` if present. -/
structure WireMsg where
  type : MsgType
  payloadStatus : Option UserPresenceStatus
  payloadMetadata : Option Metadata
deriving DecidableEq, Repr

/-- One inbound frame: its byte length and its parse result (`none` when
`JSON.parse` throws). -/
structure Frame where
  size : Nat
  msg : Option WireMsg
deriving DecidableEq, Repr

/-- How `createMessageHandler` disposed of one frame. -/
inductive FrameOutcome where
  | tooLarge
  | rateLimited
  | malformed
  | handled
  | handledThrew
deriving DecidableEq, Repr

/-- Method `WebSocketServer.checkMessageRateLimit` (lines 259–270): increment the
per-connection counter; if at least one second elapsed since the stored
window start, reset the counter to 1 and move the window; otherwise accept
only while the counter is within the limit. -/
def checkMessageRateLimit (conn : ConnInfo) (now : Nat) (limit : Nat) :
    Bool × ConnInfo :=
  let c1 : ConnInfo := { conn with messageCount := conn.messageCount + 1 }
  if 1000 ≤ now - c1.lastMessageTime then
    (true, { c1 with messageCount := 1, lastMessageTime := now })
  else
    (decide (c1.messageCount ≤ limit), c1)

/-- Result of processing one inbound frame. -/
structure MsgResult where
  conn : ConnInfo
  presence : PresenceState
  close : Option (Nat × String)
  storeWrites : List PresenceData
  broadcasts : List String
  threw : Bool
  outcome : FrameOutcome

/-- Method `WebSocketServer.handleMessage` (lines 236–256) together with
`handleHeartbeat`, `handlePresenceUpdate` and `handleDisconnect`:
HEARTBEAT sets `ws.isAlive = true` and acks; PRESENCE_UPDATE forwards to
`presenceService.updatePresence` when `ws.userId` and `payload.status` are
truthy (a rejection of the awaited call propagates to the message
handler's catch, which logs without closing); DISCONNECT closes with 1000;
everything else is dropped with a debug trace. -/
def handleMessage (conn : ConnInfo) (pres : PresenceState) (m : WireMsg) (now : Nat)
    (storeOk : Bool) : MsgResult :=
  match m.type with
  | .heartbeat => ⟨{ conn with isAlive := true }, pres, none, [], [], false, .handled⟩
  | .presenceUpdate =>
    match conn.userId, m.payloadStatus with
    | some u, some s =>
      let r := updatePresence pres u s m.payloadMetadata now storeOk
      ⟨conn, r.state, none, r.storeWrites, r.broadcasts, r.threw,
        if r.threw then .handledThrew else .handled⟩
    | _, _ => ⟨conn, pres, none, [], [], false, .handled⟩
  | .disconnect =>
    ⟨conn, pres, some (1000, "Client requested disconnect"), [], [], false, .handled⟩
  | _ => ⟨conn, pres, none, [], [], false, .handled⟩

/-- The handler returned by `createMessageHandler` (lines 162–196): reject
an oversized frame through `handleError` (close 1008); then run the rate
check — whose counter increment always happens — and reject through
`handleError` (close 1008) when it fails; only then `JSON.parse` the frame,
a parse error being caught and logged without closing; finally dispatch a
parsed message through `handleMessage`. -/
def processFrame (opts : ServerOptions) (conn : ConnInfo) (pres : PresenceState)
    (now : Nat) (f : Frame) (storeOk : Bool) : MsgResult :=
  if opts.maxMessageSize < f.size then
    ⟨conn, pres, some (1008, "Message exceeds size limit"), [], [], false, .tooLarge⟩
  else
    let p := checkMessageRateLimit conn now opts.messageRateLimit
    if p.1 then
      match f.msg with
      | none => ⟨p.2, pres, none, [], [], false, .malformed⟩
      | some m => handleMessage p.2 pres m now storeOk
    else
      ⟨p.2, pres, some (1008, "Message rate limit exceeded"), [], [], false, .rateLimited⟩

/-- Result of feeding a connection a list of timed frames. -/
structure RunResult where
  conn : ConnInfo
  presence : PresenceState
  close : Option (Nat × String)
  outcomes : List FrameOutcome

/-- Feed frames in order; once a frame closes the socket no further frame
is processed. -/
def runFrames (opts : ServerOptions) (storeOk : Bool) :
    ConnInfo → PresenceState → List (Nat × Frame) → RunResult
  | conn, pres, [] => ⟨conn, pres, none, []⟩
  | conn, pres, (t, f) :: rest =>
    let r := processFrame opts conn pres t f storeOk
    match r.close with
    | some cc => ⟨r.conn, r.presence, some cc, [r.outcome]⟩
    | none =>
      let rr := runFrames opts storeOk r.conn r.presence rest
      ⟨rr.conn, rr.presence, rr.close, r.outcome :: rr.outcomes⟩

/-- The `pong` listener installed by `setupClientHandlers` (lines 151–154). -/
def onPong (conn : ConnInfo) : ConnInfo :=
  { conn with isAlive := true }

/-- One sweep of `startHeartbeat` (lines 280–295) over a single connection:
a socket whose flag is already false is terminated (`none`); otherwise the
flag is lowered and a ping emitted. -/
def heartbeatProbe (conn : ConnInfo) : Option ConnInfo :=
  if conn.isAlive then some { conn with isAlive := false } else none

/-- True when the frame does not parse to a HEARTBEAT message. -/
def nonHeartbeat (f : Frame) : Bool :=
  match f.msg with
  | none => true
  | some m => m.type != .heartbeat

/-- True when the frame cannot request a close on its own: it is either
unparseable or parses to something other than DISCONNECT. -/
def safeFrame (f : Frame) : Bool :=
  match f.msg with
  | none => true
  | some m => m.type != .disconnect

/-! ## Characterization lemmas -/

theorem upd_upd_same {κ α : Type} [DecidableEq κ] (m : κ → Option α) (k : κ)
    (v w : Option α) : upd (upd m k v) k w = upd m k w := by
  funext x
  by_cases hx : x = k
  · simp [upd, hx]
  · simp [upd, hx]

theorem addConnection_state_presenceMap (st : PresenceState) (u : String) (c now : Nat)
    (sOk : Bool) :
    (addConnection st u c now sOk).state.presenceMap
      = upd st.presenceMap u (some ⟨u, .online, now, none⟩) := rfl

theorem addConnection_state_connections (st : PresenceState) (u : String) (c now : Nat)
    (sOk : Bool) :
    (addConnection st u c now sOk).state.connections
      = upd st.connections u (some (setAdd ((st.connections u).getD []) c)) := rfl

theorem removeConnection_eq_none (st : PresenceState) (u : String) (c now : Nat)
    (sOk : Bool) (h : st.connections u = none) :
    removeConnection st u c now sOk = ⟨st, [], [], false⟩ := by
  simp [removeConnection, h]

theorem removeConnection_eq_last (st : PresenceState) (u : String) (c now : Nat)
    (sOk : Bool) (l : List Nat) (h : st.connections u = some l)
    (hl : setDel l c = []) :
    removeConnection st u c now sOk =
      ⟨{ presenceMap := upd st.presenceMap u (some ⟨u, .offline, now, none⟩)
         connections := upd st.connections u none },
       [⟨u, .offline, now, none⟩], if sOk then [u] else [], !sOk⟩ := by
  simp [removeConnection, h, hl]

theorem removeConnection_eq_sibling (st : PresenceState) (u : String) (c now : Nat)
    (sOk : Bool) (l : List Nat) (h : st.connections u = some l)
    (hl : setDel l c ≠ []) :
    removeConnection st u c now sOk =
      ⟨{ st with connections := upd st.connections u (some (setDel l c)) },
       [], [], false⟩ := by
  simp [removeConnection, h, hl]

theorem removeConnection_pm_last (st : PresenceState) (u : String) (c now : Nat)
    (sOk : Bool) (l : List Nat) (h : st.connections u = some l)
    (hl : setDel l c = []) :
    (removeConnection st u c now sOk).state.presenceMap
      = upd st.presenceMap u (some ⟨u, .offline, now, none⟩) := by
  simp [removeConnection, h, hl]

theorem removeConnection_cn_last (st : PresenceState) (u : String) (c now : Nat)
    (sOk : Bool) (l : List Nat) (h : st.connections u = some l)
    (hl : setDel l c = []) :
    (removeConnection st u c now sOk).state.connections = upd st.connections u none := by
  simp [removeConnection, h, hl]

theorem removeConnection_pm_sibling (st : PresenceState) (u : String) (c now : Nat)
    (sOk : Bool) (l : List Nat) (h : st.connections u = some l)
    (hl : setDel l c ≠ []) :
    (removeConnection st u c now sOk).state.presenceMap = st.presenceMap := by
  simp [removeConnection, h, hl]

theorem removeConnection_cn_sibling (st : PresenceState) (u : String) (c now : Nat)
    (sOk : Bool) (l : List Nat) (h : st.connections u = some l)
    (hl : setDel l c ≠ []) :
    (removeConnection st u c now sOk).state.connections
      = upd st.connections u (some (setDel l c)) := by
  simp [removeConnection, h, hl]

/-! ## The §3 record invariant over add/remove sequences (C1) -/

/-- The per-identifier half of the §3 Presence Record invariant: a record
whose status is not OFFLINE requires at least one live connection. -/
def statusRequiresConn (st : PresenceState) (u : String) : Prop :=
  ∀ pd, st.presenceMap u = some pd → pd.status ≠ .offline → 0 < connCount st u

theorem statusRequiresConn_add (st : PresenceState) (u' u : String) (c now : Nat)
    (sOk : Bool) (h : statusRequiresConn st u') :
    statusRequiresConn (addConnection st u c now sOk).state u' := by
  intro pd hpd hs
  by_cases hu : u' = u
  · subst hu
    simp only [connCount, addConnection_state_connections, upd_same, Option.getD_some]
    exact setAdd_length_pos _ _
  · rw [addConnection_state_presenceMap, upd_other _ _ _ hu] at hpd
    have := h pd hpd hs
    simpa only [connCount, addConnection_state_connections, upd_other _ _ _ hu] using this

theorem statusRequiresConn_remove (st : PresenceState) (u' u : String) (c now : Nat)
    (sOk : Bool) (h : statusRequiresConn st u') :
    statusRequiresConn (removeConnection st u c now sOk).state u' := by
  cases hconn : st.connections u with
  | none => rw [removeConnection_eq_none st u c now sOk hconn]; exact h
  | some l =>
    by_cases hl : setDel l c = []
    · intro pd hpd hs
      rw [removeConnection_pm_last st u c now sOk l hconn hl] at hpd
      by_cases hu : u' = u
      · subst hu
        rw [upd_same] at hpd
        cases hpd
        simp at hs
      · rw [upd_other _ _ _ hu] at hpd
        have := h pd hpd hs
        simpa only [connCount, removeConnection_cn_last st u c now sOk l hconn hl,
          upd_other _ _ _ hu] using this
    · intro pd hpd hs
      rw [removeConnection_pm_sibling st u c now sOk l hconn hl] at hpd
      by_cases hu : u' = u
      · subst hu
        simp only [connCount, removeConnection_cn_sibling st u' c now sOk l hconn hl,
          upd_same, Option.getD_some]
        exact List.length_pos.mpr hl
      · have := h pd hpd hs
        simpa only [connCount, removeConnection_cn_sibling st u c now sOk l hconn hl,
          upd_other _ _ _ hu] using this

theorem statusRequiresConn_runOps (ops : List POp) :
    ∀ st : PresenceState, (∀ u, statusRequiresConn st u) →
      ops.all POp.isAddRemove = true →
      ∀ u, statusRequiresConn (runOps st ops) u := by
  induction ops with
  | nil => intro st h _ u; exact h u
  | cons op ops ih =>
    intro st h hall u
    simp only [List.all_cons, Bool.and_eq_true] at hall
    refine ih _ ?_ hall.2 u
    intro u'
    cases op with
    | add v c now sOk => exact statusRequiresConn_add _ _ _ _ _ _ (h u')
    | remove v c now sOk => exact statusRequiresConn_remove _ _ _ _ _ _ (h u')
    | update v s md now sOk => simp [POp.isAddRemove] at hall

/-- C1 (amended): for sequences built from `addConnection` and
`removeConnection` only, the §3 invariant holds: a record whose status is
ONLINE, AWAY or BUSY exists only while the identifier has at least one
live connection, and whenever the connection count is zero the record is
absent or OFFLINE.  (As stated over sequences that may also contain
`updatePresence`, the claim is false — see the counterexample — because
`updatePresence` performs no live-connection check.) -/
theorem C1_invariant_addRemove_only (ops : List POp)
    (h : ops.all POp.isAddRemove = true) (u : String) :
    (∀ pd, (runOps pinit ops).presenceMap u = some pd → pd.status ≠ .offline →
      0 < connCount (runOps pinit ops) u)
    ∧ (connCount (runOps pinit ops) u = 0 →
      (runOps pinit ops).presenceMap u = none
      ∨ statusOf (runOps pinit ops) u = some .offline) := by
  have h1 : statusRequiresConn (runOps pinit ops) u :=
    statusRequiresConn_runOps ops pinit
      (fun u' pd hpd _ => by simp [pinit] at hpd) h u
  refine ⟨h1, ?_⟩
  intro hc
  cases hm : (runOps pinit ops).presenceMap u with
  | none => exact Or.inl rfl
  | some pd =>
    by_cases hs : pd.status = .offline
    · exact Or.inr (by simp [statusOf, hm, hs])
    · have := h1 pd hm hs
      omega

/-- C1, witness: the invariant instantiated on the round-trip
connect → disconnect for identifier `"x"`. -/
theorem C1_invariant_addRemove_only_witness :
    ([POp.add "x" 1 0 true, POp.remove "x" 1 1 true].all POp.isAddRemove = true)
    ∧ ((∀ pd, (runOps pinit [POp.add "x" 1 0 true, POp.remove "x" 1 1 true]).presenceMap "x"
          = some pd → pd.status ≠ .offline →
        0 < connCount (runOps pinit [POp.add "x" 1 0 true, POp.remove "x" 1 1 true]) "x")
      ∧ (connCount (runOps pinit [POp.add "x" 1 0 true, POp.remove "x" 1 1 true]) "x" = 0 →
        (runOps pinit [POp.add "x" 1 0 true, POp.remove "x" 1 1 true]).presenceMap "x" = none
        ∨ statusOf (runOps pinit [POp.add "x" 1 0 true, POp.remove "x" 1 1 true]) "x"
            = some .offline)) :=
  ⟨by decide, C1_invariant_addRemove_only _ (by decide) "x"⟩

/-- C1, counterexample: a single `updatePresence("x", AWAY)` from the
empty state leaves a record with status AWAY while the connection count
for `"x"` is zero, so the invariant does not survive `updatePresence`
operations. -/
theorem C1_counterexample :
    (runOps pinit [POp.update "x" .away none 5 true]).presenceMap "x"
      = some ⟨"x", .away, 5, none⟩
    ∧ connCount (runOps pinit [POp.update "x" .away none 5 true]) "x" = 0 := by
  decide

/-! ## C2: updatePresence with zero live connections -/

/-- C2 (amended): `updatePresence` performs no live-connection check:
called for an identifier with zero live connections it is *not* a no-op —
it creates or rewrites the record to the requested status with a fresh
last-seen timestamp, issues a persistence write, and invokes the broadcast
of the record. -/
theorem C2_update_without_connections_not_noop (st : PresenceState) (u : String)
    (s : UserPresenceStatus) (md : Option Metadata) (now : Nat)
    (h : connCount st u = 0) :
    statusOf (updatePresence st u s md now true).state u = some s
    ∧ ((updatePresence st u s md now true).state.presenceMap u).map PresenceData.lastSeen
        = some now
    ∧ (updatePresence st u s md now true).storeWrites ≠ []
    ∧ (updatePresence st u s md now true).broadcasts = [u] := by
  refine ⟨?_, ?_, ?_, ?_⟩ <;> simp [updatePresence, statusOf, upd_same]

/-- C2, witness: the amended statement at identifier `"ann"` in the
empty state. -/
theorem C2_update_without_connections_not_noop_witness :
    connCount pinit "ann" = 0
    ∧ (statusOf (updatePresence pinit "ann" .away none 3 true).state "ann" = some .away
      ∧ ((updatePresence pinit "ann" .away none 3 true).state.presenceMap "ann").map
          PresenceData.lastSeen = some 3
      ∧ (updatePresence pinit "ann" .away none 3 true).storeWrites ≠ []
      ∧ (updatePresence pinit "ann" .away none 3 true).broadcasts = ["ann"]) :=
  ⟨by decide, C2_update_without_connections_not_noop pinit "ann" .away none 3 (by decide)⟩

/-- C2, counterexample: `updatePresence("bob", BUSY, {k: v})` on an
identifier with zero live connections changes the record, issues a store
write and emits a broadcast — the claimed no-op does not hold. -/
theorem C2_counterexample :
    connCount pinit "bob" = 0
    ∧ (updatePresence pinit "bob" .busy (some [("k", "v")]) 7 true).state.presenceMap "bob"
        = some ⟨"bob", .busy, 7, some [("k", "v")]⟩
    ∧ (updatePresence pinit "bob" .busy (some [("k", "v")]) 7 true).storeWrites
        = [⟨"bob", .busy, 7, some [("k", "v")]⟩]
    ∧ (updatePresence pinit "bob" .busy (some [("k", "v")]) 7 true).broadcasts = ["bob"] := by
  decide

/-! ## C3: addConnection on an identifier that already has connections -/

/-- C3 (amended): `addConnection` unconditionally overwrites the
Presence Record with a fresh ONLINE record carrying the current timestamp
and no metadata — even when the identifier already has live connections,
so a previously requested AWAY/BUSY status and any stored metadata are
lost when an additional connection is accepted. -/
theorem C3_addConnection_resets_record (st : PresenceState) (u : String) (c now : Nat)
    (sOk : Bool) (h : 0 < connCount st u) :
    (addConnection st u c now sOk).state.presenceMap u = some ⟨u, .online, now, none⟩ := by
  rw [addConnection_state_presenceMap, upd_same]

/-- C3, witness: the amended statement for a second connection of
`"x"`, accepted while connection `1` is still live. -/
theorem C3_addConnection_resets_record_witness :
    0 < connCount (runOps pinit [POp.add "x" 1 0 true]) "x"
    ∧ (addConnection (runOps pinit [POp.add "x" 1 0 true]) "x" 2 2 true).state.presenceMap "x"
        = some ⟨"x", .online, 2, none⟩ :=
  ⟨by decide, C3_addConnection_resets_record _ "x" 2 2 true (by decide)⟩

/-- C3, counterexample: `"x"` connects, sets AWAY, then opens a second
connection: the record that read AWAY is overwritten to ONLINE with a new
timestamp, so the additional connection did modify the record. -/
theorem C3_counterexample :
    (runOps pinit [POp.add "x" 1 0 true, POp.update "x" .away none 1 true]).presenceMap "x"
      = some ⟨"x", .away, 1, none⟩
    ∧ 0 < connCount (runOps pinit [POp.add "x" 1 0 true, POp.update "x" .away none 1 true]) "x"
    ∧ (runOps pinit [POp.add "x" 1 0 true, POp.update "x" .away none 1 true,
        POp.add "x" 2 2 true]).presenceMap "x" = some ⟨"x", .online, 2, none⟩ := by
  decide

/-! ## Server-side characterization lemmas -/

theorem setAdd_mem (l : List Nat) (c : Nat) : c ∈ setAdd l c := by
  unfold setAdd
  split
  · assumption
  · simp

theorem acceptConn_eq_noUserId (opts : ServerOptions) (st : ServerState) (c now : Nat)
    (sOk : Bool) :
    acceptConn opts st none c now sOk
      = ⟨st, some (1008, "userId is required"), [], [], false⟩ := rfl

theorem acceptConn_eq_emptyUserId (opts : ServerOptions) (st : ServerState) (c now : Nat)
    (sOk : Bool) :
    acceptConn opts st (some "") c now sOk
      = ⟨st, some (1008, "userId is required"), [], [], false⟩ := rfl

theorem acceptConn_eq_capped (opts : ServerOptions) (st : ServerState) (u : String)
    (c now : Nat) (sOk : Bool) (h1 : u ≠ "")
    (h2 : canUserConnect opts st u = false) :
    acceptConn opts st (some u) c now sOk
      = ⟨st, some (1008, "Maximum connections reached for user"), [], [], false⟩ := by
  simp [acceptConn, h1, h2]

theorem acceptConn_eq_admitted (opts : ServerOptions) (st : ServerState) (u : String)
    (c now : Nat) (sOk : Bool) (h1 : u ≠ "")
    (h2 : canUserConnect opts st u = true) :
    acceptConn opts st (some u) c now sOk
      = ⟨⟨upd st.clientMap u (some (setAdd ((st.clientMap u).getD []) c)),
          upd st.conns c (some ⟨some u, true, 0, now⟩),
          (addConnection st.presence u c now sOk).state⟩,
         if sOk then none else some (1011, "Internal server error"),
         (addConnection st.presence u c now sOk).storeWrites,
         (addConnection st.presence u c now sOk).broadcasts,
         !sOk⟩ := by
  simp only [acceptConn, h1, h2, if_neg h1, Bool.not_true, Bool.false_eq_true, if_false]
  cases sOk <;> simp [addConnection]

theorem removeClient_none (cm : String → Option (List Nat)) (u : String) (c : Nat)
    (h : cm u = none) : removeClient cm u c = cm := by
  simp [removeClient, h]

theorem removeClient_last (cm : String → Option (List Nat)) (u : String) (c : Nat)
    (l : List Nat) (h : cm u = some l) (hl : setDel l c = []) :
    removeClient cm u c = upd cm u none := by
  simp [removeClient, h, hl]

theorem removeClient_sib (cm : String → Option (List Nat)) (u : String) (c : Nat)
    (l : List Nat) (h : cm u = some l) (hl : setDel l c ≠ []) :
    removeClient cm u c = upd cm u (some (setDel l c)) := by
  simp [removeClient, h, hl]

theorem releaseConn_eq_nocon (st : ServerState) (c now : Nat) (sOk : Bool)
    (h : st.conns c = none) :
    releaseConn st c now sOk = ⟨st, none, [], [], false⟩ := by
  simp [releaseConn, h]

theorem releaseConn_eq_nouid (st : ServerState) (c now : Nat) (sOk : Bool)
    (info : ConnInfo) (h : st.conns c = some info) (hu : info.userId = none) :
    releaseConn st c now sOk = ⟨st, none, [], [], false⟩ := by
  simp [releaseConn, h, hu]

theorem releaseConn_eq_user (st : ServerState) (c now : Nat) (sOk : Bool)
    (info : ConnInfo) (u : String) (h : st.conns c = some info)
    (hu : info.userId = some u) :
    releaseConn st c now sOk
      = ⟨⟨removeClient st.clientMap u c, st.conns,
          (removeConnection st.presence u c now sOk).state⟩,
         none, (removeConnection st.presence u c now sOk).storeWrites,
         (removeConnection st.presence u c now sOk).broadcasts,
         (removeConnection st.presence u c now sOk).threw⟩ := by
  simp [releaseConn, h, hu]

/-! ## C4: persistence failure during addConnection / updatePresence -/

/-- The rate-limit check never touches `ws.userId`. -/
theorem checkRate_userId (conn : ConnInfo) (now limit : Nat) :
    ((checkMessageRateLimit conn now limit).2).userId = conn.userId := by
  unfold checkMessageRateLimit
  dsimp only
  split <;> rfl

/-- Lemma: `processFrame` on an in-budget PRESENCE_UPDATE frame forwards to
`updatePresence` and never closes, whatever the store outcome. -/
theorem processFrame_presenceUpdate (opts : ServerOptions) (conn : ConnInfo)
    (pres : PresenceState) (now sz : Nat) (s : UserPresenceStatus)
    (md : Option Metadata) (sOk : Bool) (u : String)
    (hu : conn.userId = some u) (hsz : sz ≤ opts.maxMessageSize)
    (hrate : (checkMessageRateLimit conn now opts.messageRateLimit).1 = true) :
    processFrame opts conn pres now ⟨sz, some ⟨.presenceUpdate, some s, md⟩⟩ sOk
      = ⟨(checkMessageRateLimit conn now opts.messageRateLimit).2,
         (updatePresence pres u s md now sOk).state, none,
         (updatePresence pres u s md now sOk).storeWrites,
         (updatePresence pres u s md now sOk).broadcasts,
         (updatePresence pres u s md now sOk).threw,
         if (updatePresence pres u s md now sOk).threw then .handledThrew else .handled⟩ := by
  have hsz' : ¬ opts.maxMessageSize < sz := by omega
  have hu' : ((checkMessageRateLimit conn now opts.messageRateLimit).2).userId = some u := by
    rw [checkRate_userId]; exact hu
  simp only [processFrame, hsz', if_false, hrate, if_true, handleMessage, hu']

/-- C4 (amended): a persistence failure is logged and *rethrown* by
`PresenceService`; what happens next depends on the caller.  (a) On the
accept path the `connection` handler's catch-all closes the socket with
code 1011 — so the failure does propagate and the connection *is* closed —
while the in-memory record (fresh ONLINE) and the clientMap entry created
before the write remain in place.  (b) On the PRESENCE_UPDATE message path
the message handler's catch-all swallows the error: the connection is not
closed and the in-memory record update remains. -/
theorem C4_store_failure_behavior :
    (∀ (st : ServerState) (u : String) (c now : Nat), u ≠ "" →
      canUserConnect defaultOptions st u = true →
      (acceptConn defaultOptions st (some u) c now false).close
          = some (1011, "Internal server error")
      ∧ (acceptConn defaultOptions st (some u) c now false).threw = true
      ∧ (acceptConn defaultOptions st (some u) c now false).state.presence.presenceMap u
          = some ⟨u, .online, now, none⟩
      ∧ (∃ l, (acceptConn defaultOptions st (some u) c now false).state.clientMap u
            = some l ∧ c ∈ l))
    ∧ (∀ (conn : ConnInfo) (pres : PresenceState) (u : String)
        (s : UserPresenceStatus) (md : Option Metadata) (sz now : Nat),
      conn.userId = some u → sz ≤ defaultOptions.maxMessageSize →
      (checkMessageRateLimit conn now defaultOptions.messageRateLimit).1 = true →
      (processFrame defaultOptions conn pres now
          ⟨sz, some ⟨.presenceUpdate, some s, md⟩⟩ false).close = none
      ∧ (processFrame defaultOptions conn pres now
          ⟨sz, some ⟨.presenceUpdate, some s, md⟩⟩ false).outcome = .handledThrew
      ∧ statusOf (processFrame defaultOptions conn pres now
          ⟨sz, some ⟨.presenceUpdate, some s, md⟩⟩ false).presence u = some s) := by
  constructor
  · intro st u c now h1 h2
    rw [acceptConn_eq_admitted defaultOptions st u c now false h1 h2]
    refine ⟨rfl, rfl, ?_, ?_⟩
    · rw [addConnection_state_presenceMap, upd_same]
    · exact ⟨_, upd_same _ _ _, setAdd_mem _ _⟩
  · intro conn pres u s md sz now hu hsz hrate
    rw [processFrame_presenceUpdate defaultOptions conn pres now sz s md false u hu hsz hrate]
    refine ⟨rfl, ?_, ?_⟩
    · simp [updatePresence]
    · simp [updatePresence, statusOf, upd_same]

/-- C4, witness: both halves instantiated — `"alice"` accepted while
the store is failing, and a BUSY presence-update frame processed while the
store is failing. -/
theorem C4_store_failure_behavior_witness :
    ("alice" ≠ "" ∧ canUserConnect defaultOptions sinit "alice" = true
      ∧ (⟨some "ann", true, 0, 5⟩ : ConnInfo).userId = some "ann"
      ∧ (10 : Nat) ≤ defaultOptions.maxMessageSize
      ∧ (checkMessageRateLimit ⟨some "ann", true, 0, 5⟩ 5 defaultOptions.messageRateLimit).1
          = true)
    ∧ (acceptConn defaultOptions sinit (some "alice") 1 0 false).close
        = some (1011, "Internal server error")
    ∧ (processFrame defaultOptions ⟨some "ann", true, 0, 5⟩ pinit 5
        ⟨10, some ⟨.presenceUpdate, some .busy, none⟩⟩ false).close = none :=
  ⟨⟨by decide, by decide, by decide, by decide, by decide⟩,
   (C4_store_failure_behavior.1 sinit "alice" 1 0 (by decide) (by decide)).1,
   (C4_store_failure_behavior.2 ⟨some "ann", true, 0, 5⟩ pinit "ann" .busy none 10 5
     (by decide) (by decide) (by decide)).1⟩

/-- C4, counterexample: accepting `"alice"` while the persistent-store
write fails: `addConnection` rethrows, the accept handler's catch closes
the transport with 1011 — the failure *is* propagated as a failure of the
triggering connection operation, and the connection is closed because of
it. -/
theorem C4_counterexample :
    (acceptConn defaultOptions sinit (some "alice") 1 0 false).close
      = some (1011, "Internal server error")
    ∧ (acceptConn defaultOptions sinit (some "alice") 1 0 false).threw = true := by
  decide

/-! ## C5: missing userId -/

/-- C5 (code behavior at the failing input): a connection whose URL
carries no `userId` (or an empty one) is rejected before being added to
any index, but `handleError` closes every rejection with code 1008 — not
the code 1002 the repository's own `docs/API.md` ("1002: Protocol error
(missing userId)") and the spec assign to a missing identifier. -/
theorem C5_missing_userId_closes_1008 :
    (acceptConn defaultOptions sinit none 1 0 true).close
        = some (1008, "userId is required")
    ∧ (acceptConn defaultOptions sinit none 1 0 true).state = sinit
    ∧ (acceptConn defaultOptions sinit (some "") 2 0 true).close
        = some (1008, "userId is required")
    ∧ (acceptConn defaultOptions sinit (some "") 2 0 true).state = sinit :=
  ⟨rfl, rfl, rfl, rfl⟩

/-! ## C6: per-identifier connection cap -/

/-- The §3 index invariant for the cap: every per-identifier connection
set in `clientMap` is within the configured maximum. -/
def capBounded (opts : ServerOptions) (st : ServerState) : Prop :=
  ∀ u, serverCount st u ≤ opts.maxConnectionsPerUser

theorem capBounded_accept (opts : ServerOptions) (st : ServerState)
    (p : Option String) (c now : Nat) (sOk : Bool) (h : capBounded opts st) :
    capBounded opts (acceptConn opts st p c now sOk).state := by
  cases p with
  | none => exact h
  | some u =>
    by_cases h1 : u = ""
    · subst h1
      exact h
    · cases h2 : canUserConnect opts st u with
      | false =>
        rw [acceptConn_eq_capped opts st u c now sOk h1 h2]
        exact h
      | true =>
        rw [acceptConn_eq_admitted opts st u c now sOk h1 h2]
        intro u'
        by_cases hu : u' = u
        · subst hu
          have hlt : serverCount st u' < opts.maxConnectionsPerUser := by
            have := h2
            unfold canUserConnect at this
            exact of_decide_eq_true this
          simp only [serverCount, upd_same, Option.getD_some]
          calc (setAdd ((st.clientMap u').getD []) c).length
              ≤ ((st.clientMap u').getD []).length + 1 := setAdd_length_le _ _
            _ ≤ opts.maxConnectionsPerUser := by
                have : serverCount st u' = ((st.clientMap u').getD []).length := rfl
                omega
        · have := h u'
          simpa only [serverCount, upd_other _ _ _ hu] using this

theorem removeClient_count_le (cm : String → Option (List Nat)) (u : String)
    (c : Nat) (u' : String) :
    (((removeClient cm u c) u').getD []).length ≤ ((cm u').getD []).length := by
  cases hcm : cm u with
  | none => rw [removeClient_none cm u c hcm]
  | some l =>
    by_cases hl : setDel l c = []
    · rw [removeClient_last cm u c l hcm hl]
      by_cases hu : u' = u
      · subst hu
        simp [upd_same]
      · rw [upd_other _ _ _ hu]
    · rw [removeClient_sib cm u c l hcm hl]
      by_cases hu : u' = u
      · subst hu
        rw [upd_same, hcm]
        simpa using setDel_length_le l c
      · rw [upd_other _ _ _ hu]

theorem capBounded_release (st : ServerState) (c now : Nat) (sOk : Bool)
    (opts : ServerOptions) (h : capBounded opts st) :
    capBounded opts (releaseConn st c now sOk).state := by
  cases hc : st.conns c with
  | none =>
    rw [releaseConn_eq_nocon st c now sOk hc]
    exact h
  | some info =>
    cases hu : info.userId with
    | none =>
      rw [releaseConn_eq_nouid st c now sOk info hc hu]
      exact h
    | some u =>
      rw [releaseConn_eq_user st c now sOk info u hc hu]
      intro u'
      calc (((removeClient st.clientMap u c) u').getD []).length
          ≤ ((st.clientMap u').getD []).length := removeClient_count_le _ _ _ _
        _ ≤ opts.maxConnectionsPerUser := h u'

theorem capBounded_runServer (opts : ServerOptions) (ops : List SOp) :
    ∀ st : ServerState, capBounded opts st → capBounded opts (runServer opts st ops) := by
  induction ops with
  | nil => intro st h; exact h
  | cons op ops ih =>
    intro st h
    cases op with
    | accept p c now sOk => exact ih _ (capBounded_accept opts st p c now sOk h)
    | close c now sOk => exact ih _ (capBounded_release st c now sOk opts h)

/-- C6: the per-identifier connection count in the registry's index
never exceeds the configured cap along any sequence of accepts and closes,
and an accept for an identifier already at the cap is rejected — the
transport is closed with the policy-violation code 1008 and the
cap-exceeded reason, and the state (hence every index) is unchanged. -/
theorem C6_connection_cap (opts : ServerOptions) :
    (∀ (ops : List SOp) (u : String),
      serverCount (runServer opts sinit ops) u ≤ opts.maxConnectionsPerUser)
    ∧ (∀ (st : ServerState) (u : String) (c now : Nat) (sOk : Bool), u ≠ "" →
      serverCount st u = opts.maxConnectionsPerUser →
      acceptConn opts st (some u) c now sOk
        = ⟨st, some (1008, "Maximum connections reached for user"), [], [], false⟩) := by
  constructor
  · intro ops u
    exact capBounded_runServer opts ops sinit (fun u' => by simp [serverCount, sinit]) u
  · intro st u c now sOk h1 h2
    have h3 : canUserConnect opts st u = false := by
      unfold canUserConnect
      rw [h2]
      simp
    exact acceptConn_eq_capped opts st u c now sOk h1 h3

/-- C6, witness: with the default cap 5, identifier `"u"` holding five
live connections has a sixth accept rejected with close code 1008, and the
invariant instantiated after a six-accept sequence. -/
theorem C6_connection_cap_witness :
    ("u" ≠ ""
      ∧ serverCount (runServer defaultOptions sinit
          [SOp.accept (some "u") 0 0 true, SOp.accept (some "u") 1 0 true,
           SOp.accept (some "u") 2 0 true, SOp.accept (some "u") 3 0 true,
           SOp.accept (some "u") 4 0 true]) "u" = defaultOptions.maxConnectionsPerUser)
    ∧ acceptConn defaultOptions (runServer defaultOptions sinit
          [SOp.accept (some "u") 0 0 true, SOp.accept (some "u") 1 0 true,
           SOp.accept (some "u") 2 0 true, SOp.accept (some "u") 3 0 true,
           SOp.accept (some "u") 4 0 true]) (some "u") 9 1 true
        = ⟨runServer defaultOptions sinit
            [SOp.accept (some "u") 0 0 true, SOp.accept (some "u") 1 0 true,
             SOp.accept (some "u") 2 0 true, SOp.accept (some "u") 3 0 true,
             SOp.accept (some "u") 4 0 true],
           some (1008, "Maximum connections reached for user"), [], [], false⟩
    ∧ serverCount (runServer defaultOptions sinit
          [SOp.accept (some "u") 0 0 true, SOp.accept (some "u") 1 0 true,
           SOp.accept (some "u") 2 0 true, SOp.accept (some "u") 3 0 true,
           SOp.accept (some "u") 4 0 true, SOp.accept (some "u") 9 1 true]) "u"
        ≤ defaultOptions.maxConnectionsPerUser :=
  ⟨⟨by decide, by decide⟩,
   (C6_connection_cap defaultOptions).2 _ "u" 9 1 true (by decide) (by decide),
   (C6_connection_cap defaultOptions).1 _ "u"⟩

/-! ## C7: release idempotence -/

theorem removeClient_idem (cm : String → Option (List Nat)) (u : String) (c : Nat) :
    removeClient (removeClient cm u c) u c = removeClient cm u c := by
  cases hcm : cm u with
  | none =>
    rw [removeClient_none cm u c hcm, removeClient_none cm u c hcm]
  | some l =>
    by_cases hl : setDel l c = []
    · rw [removeClient_last cm u c l hcm hl]
      exact removeClient_none _ u c (upd_same _ _ _)
    · rw [removeClient_sib cm u c l hcm hl]
      rw [removeClient_sib _ u c (setDel l c) (upd_same _ _ _)
        (by rw [setDel_idem]; exact hl)]
      rw [setDel_idem, upd_upd_same]

/-- A second `removeConnection` for a client already removed is a complete
no-op: state unchanged, no store write, no broadcast, no throw. -/
theorem removeConnection_after (st : PresenceState) (u : String) (c : Nat)
    (n1 n2 : Nat) (s1 s2 : Bool) :
    removeConnection (removeConnection st u c n1 s1).state u c n2 s2
      = ⟨(removeConnection st u c n1 s1).state, [], [], false⟩ := by
  cases hconn : st.connections u with
  | none =>
    have h2 : (removeConnection st u c n1 s1).state.connections u = none := by
      rw [removeConnection_eq_none st u c n1 s1 hconn]
      exact hconn
    exact removeConnection_eq_none _ u c n2 s2 h2
  | some l =>
    by_cases hl : setDel l c = []
    · have h2 : (removeConnection st u c n1 s1).state.connections u = none := by
        rw [removeConnection_cn_last st u c n1 s1 l hconn hl, upd_same]
      exact removeConnection_eq_none _ u c n2 s2 h2
    · have h2 : (removeConnection st u c n1 s1).state.connections u
          = some (setDel l c) := by
        rw [removeConnection_cn_sibling st u c n1 s1 l hconn hl, upd_same]
      have h3 : setDel (setDel l c) c ≠ [] := by
        rw [setDel_idem]; exact hl
      rw [removeConnection_eq_sibling _ u c n2 s2 (setDel l c) h2 h3]
      have h4 : upd (removeConnection st u c n1 s1).state.connections u
          (some (setDel (setDel l c) c))
          = (removeConnection st u c n1 s1).state.connections := by
        rw [setDel_idem, removeConnection_cn_sibling st u c n1 s1 l hconn hl,
          upd_upd_same]
      rw [h4]

/-- C7: releasing a connection a second time, after it has already
been released, is a no-op for the registry and the presence manager: the
state (connection sets, presence records, bound fields) is exactly the
state after the first release, no offline transition or store write is
issued, no broadcast is emitted, and no close is requested.  This holds
from every state — in particular both when sibling connections of the same
identifier remain and when the released connection was the last. -/
theorem C7_release_idempotent (st : ServerState) (c : Nat) (n1 n2 : Nat)
    (s1 s2 : Bool) :
    (releaseConn (releaseConn st c n1 s1).state c n2 s2).state
        = (releaseConn st c n1 s1).state
    ∧ (releaseConn (releaseConn st c n1 s1).state c n2 s2).broadcasts = []
    ∧ (releaseConn (releaseConn st c n1 s1).state c n2 s2).storeWrites = []
    ∧ (releaseConn (releaseConn st c n1 s1).state c n2 s2).close = none := by
  cases hc : st.conns c with
  | none =>
    simp [releaseConn_eq_nocon st c n1 s1 hc, releaseConn_eq_nocon st c n2 s2 hc]
  | some info =>
    cases hu : info.userId with
    | none =>
      simp [releaseConn_eq_nouid st c n1 s1 info hc hu,
        releaseConn_eq_nouid st c n2 s2 info hc hu]
    | some u =>
      have h5 := removeConnection_after st.presence u c n1 n2 s1 s2
      have hst1 : (releaseConn st c n1 s1).state
          = ⟨removeClient st.clientMap u c, st.conns,
             (removeConnection st.presence u c n1 s1).state⟩ := by
        rw [releaseConn_eq_user st c n1 s1 info u hc hu]
      have hc2 : (releaseConn st c n1 s1).state.conns c = some info := by
        rw [hst1]; exact hc
      rw [releaseConn_eq_user _ c n2 s2 info u hc2 hu, hst1]
      dsimp only
      rw [removeClient_idem, h5]
      exact ⟨rfl, rfl, rfl, rfl⟩

/-! ## Inbound-frame lemmas (C8, C9, C10) -/

theorem checkRate_isAlive (conn : ConnInfo) (now limit : Nat) :
    ((checkMessageRateLimit conn now limit).2).isAlive = conn.isAlive := by
  unfold checkMessageRateLimit
  dsimp only
  split <;> rfl

/-- Inside the current window the rate check accepts exactly while the
incremented counter stays within the limit, and only bumps the counter. -/
theorem checkRate_in_window (conn : ConnInfo) (now limit : Nat)
    (hwin : now < conn.lastMessageTime + 1000) :
    checkMessageRateLimit conn now limit
      = (decide (conn.messageCount + 1 ≤ limit),
         { conn with messageCount := conn.messageCount + 1 }) := by
  unfold checkMessageRateLimit
  dsimp only
  rw [if_neg (by omega)]

theorem handleMessage_not_heartbeat_isAlive (conn : ConnInfo) (pres : PresenceState)
    (m : WireMsg) (now : Nat) (sOk : Bool) (h : m.type ≠ .heartbeat) :
    (handleMessage conn pres m now sOk).conn.isAlive = conn.isAlive := by
  unfold handleMessage
  cases htm : m.type with
  | heartbeat => exact absurd htm h
  | presenceUpdate => cases conn.userId <;> cases m.payloadStatus <;> rfl
  | connect => rfl
  | disconnect => rfl
  | heartbeatAck => rfl
  | error => rfl
  | other => rfl

/-- Shape facts about `handleMessage` on a non-DISCONNECT message: no
close, the rate-limit fields untouched, and an outcome that is neither a
rate-limit nor a size rejection. -/
theorem handleMessage_not_disconnect (conn : ConnInfo) (pres : PresenceState)
    (m : WireMsg) (now : Nat) (sOk : Bool) (h : m.type ≠ .disconnect) :
    (handleMessage conn pres m now sOk).close = none
    ∧ (handleMessage conn pres m now sOk).conn.messageCount = conn.messageCount
    ∧ (handleMessage conn pres m now sOk).conn.lastMessageTime = conn.lastMessageTime
    ∧ (handleMessage conn pres m now sOk).outcome ≠ .rateLimited
    ∧ (handleMessage conn pres m now sOk).outcome ≠ .tooLarge := by
  unfold handleMessage
  cases htm : m.type with
  | disconnect => exact absurd htm h
  | heartbeat => exact ⟨rfl, rfl, rfl, by simp, by simp⟩
  | presenceUpdate =>
    cases conn.userId with
    | none => cases m.payloadStatus <;> exact ⟨rfl, rfl, rfl, by simp, by simp⟩
    | some u =>
      cases m.payloadStatus with
      | none => exact ⟨rfl, rfl, rfl, by simp, by simp⟩
      | some s =>
        refine ⟨rfl, rfl, rfl, ?_, ?_⟩ <;> dsimp only <;> split <;> simp
  | connect => exact ⟨rfl, rfl, rfl, by simp, by simp⟩
  | heartbeatAck => exact ⟨rfl, rfl, rfl, by simp, by simp⟩
  | error => exact ⟨rfl, rfl, rfl, by simp, by simp⟩
  | other => exact ⟨rfl, rfl, rfl, by simp, by simp⟩

/-- One in-window, in-budget frame that cannot request a close: admitted,
never closed, counter bumped by exactly one, window start untouched. -/
theorem processFrame_safe_step (opts : ServerOptions) (conn : ConnInfo)
    (pres : PresenceState) (now : Nat) (f : Frame) (sOk : Bool)
    (hsz : f.size ≤ opts.maxMessageSize)
    (hwin : now < conn.lastMessageTime + 1000)
    (hcnt : conn.messageCount + 1 ≤ opts.messageRateLimit)
    (hsafe : safeFrame f = true) :
    (processFrame opts conn pres now f sOk).close = none
    ∧ (processFrame opts conn pres now f sOk).outcome ≠ .rateLimited
    ∧ (processFrame opts conn pres now f sOk).outcome ≠ .tooLarge
    ∧ (processFrame opts conn pres now f sOk).conn.messageCount = conn.messageCount + 1
    ∧ (processFrame opts conn pres now f sOk).conn.lastMessageTime
        = conn.lastMessageTime := by
  have hsz' : ¬ opts.maxMessageSize < f.size := by omega
  have hrate : checkMessageRateLimit conn now opts.messageRateLimit
      = (true, { conn with messageCount := conn.messageCount + 1 }) := by
    rw [checkRate_in_window conn now opts.messageRateLimit hwin]
    simp [hcnt]
  cases hm : f.msg with
  | none =>
    simp only [processFrame, hsz', if_false, hrate, hm, if_true]
    simp
  | some m =>
    have htype : m.type ≠ .disconnect := by
      unfold safeFrame at hsafe
      rw [hm] at hsafe
      simpa using hsafe
    simp only [processFrame, hsz', if_false, hrate, hm, if_true]
    have hh := handleMessage_not_disconnect
      { conn with messageCount := conn.messageCount + 1 } pres m now sOk htype
    exact ⟨hh.1, hh.2.2.2.1, hh.2.2.2.2, hh.2.1, hh.2.2.1⟩

/-- One in-window frame that overflows the budget: the counter is bumped,
then the rate check fails and the socket is closed with 1008. -/
theorem processFrame_rate_reject (opts : ServerOptions) (conn : ConnInfo)
    (pres : PresenceState) (now : Nat) (f : Frame) (sOk : Bool)
    (hsz : f.size ≤ opts.maxMessageSize)
    (hwin : now < conn.lastMessageTime + 1000)
    (hcnt : opts.messageRateLimit < conn.messageCount + 1) :
    processFrame opts conn pres now f sOk
      = ⟨{ conn with messageCount := conn.messageCount + 1 }, pres,
         some (1008, "Message rate limit exceeded"), [], [], false, .rateLimited⟩ := by
  have hsz' : ¬ opts.maxMessageSize < f.size := by omega
  have hrate : checkMessageRateLimit conn now opts.messageRateLimit
      = (false, { conn with messageCount := conn.messageCount + 1 }) := by
    rw [checkRate_in_window conn now opts.messageRateLimit hwin]
    simp
    omega
  simp only [processFrame, hsz', if_false, hrate, Bool.false_eq_true]

/-- One in-window, in-budget *malformed* frame: the counter is bumped
first, then `JSON.parse` throws and the frame is dropped without a close
and without touching presence state. -/
theorem processFrame_malformed_step (opts : ServerOptions) (conn : ConnInfo)
    (pres : PresenceState) (now : Nat) (f : Frame) (sOk : Bool)
    (hsz : f.size ≤ opts.maxMessageSize)
    (hwin : now < conn.lastMessageTime + 1000)
    (hcnt : conn.messageCount + 1 ≤ opts.messageRateLimit)
    (hm : f.msg = none) :
    processFrame opts conn pres now f sOk
      = ⟨{ conn with messageCount := conn.messageCount + 1 }, pres, none, [], [],
         false, .malformed⟩ := by
  have hsz' : ¬ opts.maxMessageSize < f.size := by omega
  have hrate : checkMessageRateLimit conn now opts.messageRateLimit
      = (true, { conn with messageCount := conn.messageCount + 1 }) := by
    rw [checkRate_in_window conn now opts.messageRateLimit hwin]
    simp [hcnt]
  simp only [processFrame, hsz', if_false, hrate, hm, if_true]

/-- Running any number of in-window, in-budget, non-closing frames: the
socket stays open, every frame is admitted (no rate or size rejection),
and the counter ends at exactly the number of frames processed. -/
theorem runFrames_safe_window (opts : ServerOptions) (sOk : Bool) (t0 : Nat) :
    ∀ (fs : List (Nat × Frame)) (conn : ConnInfo) (pres : PresenceState),
      conn.lastMessageTime = t0 →
      (∀ p ∈ fs, p.1 < t0 + 1000 ∧ p.2.size ≤ opts.maxMessageSize
        ∧ safeFrame p.2 = true) →
      conn.messageCount + fs.length ≤ opts.messageRateLimit →
      (runFrames opts sOk conn pres fs).close = none
      ∧ (runFrames opts sOk conn pres fs).outcomes.length = fs.length
      ∧ (∀ o ∈ (runFrames opts sOk conn pres fs).outcomes,
          o ≠ .rateLimited ∧ o ≠ .tooLarge)
      ∧ (runFrames opts sOk conn pres fs).conn.messageCount
          = conn.messageCount + fs.length
      ∧ (runFrames opts sOk conn pres fs).conn.lastMessageTime = t0 := by
  intro fs
  induction fs with
  | nil =>
    intro conn pres ht _ _
    exact ⟨rfl, rfl, by simp [runFrames], by simp [runFrames], ht⟩
  | cons p fs ih =>
    intro conn pres ht hall hcnt
    obtain ⟨t, f⟩ := p
    have hp := hall (t, f) (List.mem_cons_self _ _)
    have hstep := processFrame_safe_step opts conn pres t f sOk hp.2.1
      (by rw [ht]; exact hp.1) (by simp only [List.length_cons] at hcnt; omega) hp.2.2
    have hrec := ih (processFrame opts conn pres t f sOk).conn
      (processFrame opts conn pres t f sOk).presence
      (by rw [hstep.2.2.2.2]; exact ht)
      (fun q hq => hall q (List.mem_cons_of_mem _ hq))
      (by rw [hstep.2.2.2.1]; simp only [List.length_cons] at hcnt; omega)
    simp only [runFrames]
    rw [hstep.1]
    refine ⟨hrec.1, ?_, ?_, ?_, hrec.2.2.2.2⟩
    · simp [hrec.2.1]
    · intro o ho
      simp only [List.mem_cons] at ho
      cases ho with
      | inl h => exact h ▸ ⟨hstep.2.1, hstep.2.2.1⟩
      | inr h => exact hrec.2.2.1 o h
    · rw [hrec.2.2.2.1, hstep.2.2.2.1]
      simp only [List.length_cons]
      omega

/-- Appending one more frame after a prefix that never closed: the final
close and the appended outcome are those of processing that frame at the
state the prefix reached. -/
theorem runFrames_snoc (opts : ServerOptions) (sOk : Bool) :
    ∀ (fs : List (Nat × Frame)) (conn : ConnInfo) (pres : PresenceState)
      (p : Nat × Frame),
      (runFrames opts sOk conn pres fs).close = none →
      (runFrames opts sOk conn pres (fs ++ [p])).close
        = (processFrame opts (runFrames opts sOk conn pres fs).conn
            (runFrames opts sOk conn pres fs).presence p.1 p.2 sOk).close
      ∧ (runFrames opts sOk conn pres (fs ++ [p])).outcomes
        = (runFrames opts sOk conn pres fs).outcomes
          ++ [(processFrame opts (runFrames opts sOk conn pres fs).conn
               (runFrames opts sOk conn pres fs).presence p.1 p.2 sOk).outcome] := by
  intro fs
  induction fs with
  | nil =>
    intro conn pres p _
    obtain ⟨t, f⟩ := p
    simp only [List.nil_append, runFrames]
    cases hcl : (processFrame opts conn pres t f sOk).close with
    | some cc => exact ⟨rfl, rfl⟩
    | none => exact ⟨rfl, rfl⟩
  | cons q fs ih =>
    intro conn pres p h
    obtain ⟨t, f⟩ := q
    simp only [List.cons_append, runFrames] at h ⊢
    cases hcl : (processFrame opts conn pres t f sOk).close with
    | some cc =>
      rw [hcl] at h
      simp at h
    | none =>
      rw [hcl] at h
      dsimp only at h ⊢
      have := ih (processFrame opts conn pres t f sOk).conn
        (processFrame opts conn pres t f sOk).presence p h
      refine ⟨this.1, ?_⟩
      exact congrArg (fun l => (processFrame opts conn pres t f sOk).outcome :: l) this.2

/-- Running in-window, in-budget frames that are all unparseable: every
frame is admitted by the rate check, counted, then dropped as malformed;
the socket stays open and presence state is untouched. -/
theorem runFrames_malformed_window (opts : ServerOptions) (sOk : Bool) (t0 : Nat) :
    ∀ (fs : List (Nat × Frame)) (conn : ConnInfo) (pres : PresenceState),
      conn.lastMessageTime = t0 →
      (∀ p ∈ fs, p.1 < t0 + 1000 ∧ p.2.size ≤ opts.maxMessageSize ∧ p.2.msg = none) →
      conn.messageCount + fs.length ≤ opts.messageRateLimit →
      runFrames opts sOk conn pres fs
        = ⟨{ conn with messageCount := conn.messageCount + fs.length }, pres, none,
           List.replicate fs.length .malformed⟩ := by
  intro fs
  induction fs with
  | nil =>
    intro conn pres ht _ _
    rfl
  | cons p fs ih =>
    intro conn pres ht hall hcnt
    obtain ⟨t, f⟩ := p
    have hp := hall (t, f) (List.mem_cons_self _ _)
    have hstep := processFrame_malformed_step opts conn pres t f sOk hp.2.1
      (by rw [ht]; exact hp.1) (by simp only [List.length_cons] at hcnt; omega) hp.2.2
    simp only [runFrames, hstep]
    rw [ih { conn with messageCount := conn.messageCount + 1 } pres ht
      (fun q hq => hall q (List.mem_cons_of_mem _ hq))
      (by simp only [List.length_cons] at hcnt; dsimp only; omega)]
    dsimp only
    have harith : conn.messageCount + 1 + fs.length = conn.messageCount + (fs.length + 1) := by
      omega
    rw [harith]
    simp [List.replicate_succ]

/-- C8: from a fresh connection at the default 100 messages/second
threshold, 100 frames inside one 1-second window are all admitted — no
rate or size rejection, no close — while a 101st frame inside the same
window fails the rate check and closes the connection with the
policy-violation code 1008. -/
theorem C8_rate_limit_default (t0 : Nat) (conn : ConnInfo) (pres : PresenceState)
    (sOk : Bool) (fs : List (Nat × Frame)) (p : Nat × Frame)
    (hcnt0 : conn.messageCount = 0) (ht : conn.lastMessageTime = t0)
    (hlen : fs.length = 100)
    (hall : ∀ q ∈ fs, t0 ≤ q.1 ∧ q.1 < t0 + 1000
        ∧ q.2.size ≤ defaultOptions.maxMessageSize ∧ safeFrame q.2 = true)
    (hp : t0 ≤ p.1 ∧ p.1 < t0 + 1000 ∧ p.2.size ≤ defaultOptions.maxMessageSize) :
    ((runFrames defaultOptions sOk conn pres fs).close = none
      ∧ (runFrames defaultOptions sOk conn pres fs).outcomes.length = 100
      ∧ (∀ o ∈ (runFrames defaultOptions sOk conn pres fs).outcomes,
          o ≠ .rateLimited ∧ o ≠ .tooLarge))
    ∧ (runFrames defaultOptions sOk conn pres (fs ++ [p])).close
        = some (1008, "Message rate limit exceeded")
    ∧ (runFrames defaultOptions sOk conn pres (fs ++ [p])).outcomes
        = (runFrames defaultOptions sOk conn pres fs).outcomes ++ [.rateLimited] := by
  have hw := runFrames_safe_window defaultOptions sOk t0 fs conn pres ht
    (fun q hq => ⟨(hall q hq).2.1, (hall q hq).2.2.1, (hall q hq).2.2.2⟩)
    (by rw [hcnt0, hlen]; decide)
  have hsn := runFrames_snoc defaultOptions sOk fs conn pres p hw.1
  have hrej := processFrame_rate_reject defaultOptions
    (runFrames defaultOptions sOk conn pres fs).conn
    (runFrames defaultOptions sOk conn pres fs).presence p.1 p.2 sOk
    hp.2.2
    (by rw [hw.2.2.2.2]; exact hp.2.1)
    (by rw [hw.2.2.2.1, hcnt0, hlen]; decide)
  refine ⟨⟨hw.1, by rw [hw.2.1, hlen], hw.2.2.1⟩, ?_, ?_⟩
  · rw [hsn.1, hrej]
  · rw [hsn.2, hrej]

/-- C8, witness: a fresh connection fed 100 small well-formed frames
at times inside one window and then a 101st, all evaluated concretely. -/
theorem C8_rate_limit_default_witness :
    ((List.replicate 100 ((0 : Nat), Frame.mk 10 (some (WireMsg.mk .other none none)))).length
        = 100)
    ∧ (runFrames defaultOptions true (ConnInfo.mk (some "u") true 0 0) pinit
        (List.replicate 100 ((0 : Nat), Frame.mk 10 (some (WireMsg.mk .other none none)))
          ++ [((5 : Nat), Frame.mk 10 (some (WireMsg.mk .other none none)))])).close
        = some (1008, "Message rate limit exceeded") :=
  ⟨by decide,
   (C8_rate_limit_default 0 (ConnInfo.mk (some "u") true 0 0) pinit true
      (List.replicate 100 ((0 : Nat), Frame.mk 10 (some (WireMsg.mk .other none none))))
      ((5 : Nat), Frame.mk 10 (some (WireMsg.mk .other none none)))
      rfl rfl (by decide) (by decide) (by decide)).2.1⟩

/-- C9 (amended): the liveness flag is initialized `true` at accept and
is mutated by exactly three handlers: the probe loop (which terminates a
connection whose flag is false and otherwise lowers the flag), the
transport-level pong handler (raises it), and the *inbound HEARTBEAT
message handler* (raises it).  Inbound frames of every other kind —
malformed, oversized, rate-limited, PRESENCE_UPDATE, DISCONNECT, unknown —
leave the flag untouched.  (The claim's "no inbound message handling
changes the liveness flag" fails: see the counterexample.) -/
theorem C9_liveness_flag_mutators :
    (∀ (opts : ServerOptions) (conn : ConnInfo) (pres : PresenceState) (now : Nat)
        (f : Frame) (sOk : Bool), nonHeartbeat f = true →
      (processFrame opts conn pres now f sOk).conn.isAlive = conn.isAlive)
    ∧ (∀ (opts : ServerOptions) (conn : ConnInfo) (pres : PresenceState) (now sz : Nat)
        (ps : Option UserPresenceStatus) (md : Option Metadata) (sOk : Bool),
      sz ≤ opts.maxMessageSize →
      (checkMessageRateLimit conn now opts.messageRateLimit).1 = true →
      (processFrame opts conn pres now ⟨sz, some ⟨.heartbeat, ps, md⟩⟩ sOk).conn.isAlive
        = true)
    ∧ (∀ conn : ConnInfo, (onPong conn).isAlive = true)
    ∧ (∀ conn : ConnInfo, conn.isAlive = true →
        heartbeatProbe conn = some { conn with isAlive := false })
    ∧ (∀ conn : ConnInfo, conn.isAlive = false → heartbeatProbe conn = none) := by
  refine ⟨?_, ?_, ?_, ?_, ?_⟩
  · intro opts conn pres now f sOk hnb
    unfold processFrame
    split
    · rfl
    · by_cases hr : (checkMessageRateLimit conn now opts.messageRateLimit).1 = true
      · rw [if_pos hr]
        cases hm : f.msg with
        | none => exact checkRate_isAlive conn now opts.messageRateLimit
        | some m =>
          have hmt : m.type ≠ .heartbeat := by
            unfold nonHeartbeat at hnb
            rw [hm] at hnb
            simpa using hnb
          rw [handleMessage_not_heartbeat_isAlive _ pres m now sOk hmt]
          exact checkRate_isAlive conn now opts.messageRateLimit
      · rw [if_neg hr]
        exact checkRate_isAlive conn now opts.messageRateLimit
  · intro opts conn pres now sz ps md sOk hsz hr
    have hsz' : ¬ opts.maxMessageSize < sz := by omega
    unfold processFrame
    rw [if_neg hsz', if_pos hr]
    rfl
  · intro conn
    rfl
  · intro conn h
    simp [heartbeatProbe, h]
  · intro conn h
    simp [heartbeatProbe, h]

/-- C9, witness: a PRESENCE_UPDATE frame — inbound message handling
that is not a heartbeat — leaves the liveness flag of a half-probed
connection unchanged. -/
theorem C9_liveness_flag_mutators_witness :
    nonHeartbeat (Frame.mk 10 (some (WireMsg.mk .presenceUpdate (some .away) none))) = true
    ∧ (processFrame defaultOptions (ConnInfo.mk (some "x") false 3 0) pinit 1
        (Frame.mk 10 (some (WireMsg.mk .presenceUpdate (some .away) none))) true).conn.isAlive
      = (ConnInfo.mk (some "x") false 3 0).isAlive :=
  ⟨by decide,
   C9_liveness_flag_mutators.1 defaultOptions (ConnInfo.mk (some "x") false 3 0) pinit 1
     (Frame.mk 10 (some (WireMsg.mk .presenceUpdate (some .away) none))) true (by decide)⟩

/-- C9, counterexample: inbound message handling *does* mutate the
liveness flag: an inbound HEARTBEAT frame processed by the message handler
(`handleHeartbeat`, not the pong handler and not the probe loop) flips the
flag of a connection from false to true. -/
theorem C9_counterexample :
    (ConnInfo.mk (some "x") false 0 0).isAlive = false
    ∧ (processFrame defaultOptions (ConnInfo.mk (some "x") false 0 0) pinit 0
        (Frame.mk 10 (some (WireMsg.mk .heartbeat none none))) true).conn.isAlive = true := by
  decide

/-- C10: a structurally malformed frame still consumes rate budget —
the counter is incremented and the rate check applied before the parse —
so a fresh connection sending 100 unparseable frames inside one window has
all 100 counted and dropped as malformed, and a 101st malformed frame in
the same window fails the rate check and closes the connection with the
policy-violation code 1008 rather than merely being dropped. -/
theorem C10_malformed_consumes_budget (t0 : Nat) (conn : ConnInfo)
    (pres : PresenceState) (sOk : Bool) (fs : List (Nat × Frame)) (p : Nat × Frame)
    (hcnt0 : conn.messageCount = 0) (ht : conn.lastMessageTime = t0)
    (hlen : fs.length = 100)
    (hall : ∀ q ∈ fs, q.1 < t0 + 1000 ∧ q.2.size ≤ defaultOptions.maxMessageSize
        ∧ q.2.msg = none)
    (hp : p.1 < t0 + 1000 ∧ p.2.size ≤ defaultOptions.maxMessageSize ∧ p.2.msg = none) :
    (runFrames defaultOptions sOk conn pres fs).conn.messageCount = 100
    ∧ (runFrames defaultOptions sOk conn pres fs).outcomes
        = List.replicate 100 .malformed
    ∧ (runFrames defaultOptions sOk conn pres fs).close = none
    ∧ (runFrames defaultOptions sOk conn pres (fs ++ [p])).close
        = some (1008, "Message rate limit exceeded")
    ∧ (runFrames defaultOptions sOk conn pres (fs ++ [p])).outcomes
        = List.replicate 100 .malformed ++ [.rateLimited] := by
  have hm := runFrames_malformed_window defaultOptions sOk t0 fs conn pres ht hall
    (by rw [hcnt0, hlen]; decide)
  have hclose : (runFrames defaultOptions sOk conn pres fs).close = none := by
    rw [hm]
  have hsn := runFrames_snoc defaultOptions sOk fs conn pres p hclose
  have hrej := processFrame_rate_reject defaultOptions
    (runFrames defaultOptions sOk conn pres fs).conn
    (runFrames defaultOptions sOk conn pres fs).presence p.1 p.2 sOk
    hp.2.1
    (by rw [hm]; dsimp only; rw [ht]; exact hp.1)
    (by rw [hm]; dsimp only; rw [hcnt0, hlen]; decide)
  refine ⟨?_, ?_, hclose, ?_, ?_⟩
  · rw [hm]
    dsimp only
    rw [hcnt0, hlen]
  · rw [hm]
    dsimp only
    rw [hlen]
  · rw [hsn.1, hrej]
  · rw [hsn.2, hrej, hm]
    dsimp only
    rw [hlen]

/-- C10, witness: a fresh connection fed 101 small unparseable frames
inside one window, evaluated concretely. -/
theorem C10_malformed_consumes_budget_witness :
    ((List.replicate 100 ((0 : Nat), Frame.mk 10 (none : Option WireMsg))).length = 100)
    ∧ (runFrames defaultOptions true (ConnInfo.mk (some "u") true 0 0) pinit
        (List.replicate 100 ((0 : Nat), Frame.mk 10 (none : Option WireMsg))
          ++ [((1 : Nat), Frame.mk 10 (none : Option WireMsg))])).close
        = some (1008, "Message rate limit exceeded") :=
  ⟨by decide,
   (C10_malformed_consumes_budget 0 (ConnInfo.mk (some "u") true 0 0) pinit true
      (List.replicate 100 ((0 : Nat), Frame.mk 10 (none : Option WireMsg)))
      ((1 : Nat), Frame.mk 10 (none : Option WireMsg))
      rfl rfl (by decide) (by decide) (by decide)).2.2.2.1⟩

end WsPresence
